import Mathlib

/-
  Verification development for the leasing-agreement service.

  Shallow embedding of:
    src/src/services/leasingAgreementService.ts
    src/src/utils/validation.ts
    src/src/config/index.ts (default leasing configuration)

  Modelling conventions:
  * JS numbers that carry money are modelled as exact rationals; the source's
    `Math.round(x * 100) / 100` becomes `round2` below.
  * JS `Date` values are modelled at day granularity as (year, 0-based month,
    day-of-month) triples; `setMonth` / `setDate` / `setFullYear` overflow
    normalization (e.g. Feb 31 -> Mar 3) is modelled by `normDay`.
  * Fallible service calls are oracle parameters (`Except JsError _` outcomes);
    thrown JS exceptions become `Except` error values.
-/

namespace Leasing

/-- A JS Date at day granularity: calendar year, 0-based month (as returned by
`getMonth()`), and 1-based day of month (as returned by `getDate()`). -/
structure JsDate where
  year : Int
  month : Int
  day : Int
deriving DecidableEq

/-- Gregorian leap-year test, as used by the JS Date normalization. -/
def isLeapYear (y : Int) : Bool :=
  (y % 4 == 0 && y % 100 != 0) || y % 400 == 0

/-- Number of days in the (0-based) month `m` of year `y`; `m` is expected
normalized to `0..11`. -/
def daysInMonth (y m : Int) : Int :=
  if m == 1 then (if isLeapYear y then 29 else 28)
  else if m == 3 || m == 5 || m == 8 || m == 10 then 30
  else 31

/-- Normalize a possibly out-of-range 0-based month into `0..11`, carrying
whole years, exactly as the JS Date timestamp normalization does. -/
def normMonth (dt : JsDate) : JsDate :=
  ⟨dt.year + dt.month / 12, dt.month % 12, dt.day⟩

/-- Normalize a day-of-month overflow (e.g. Feb 31 -> Mar 3) by carrying into
following months, as the JS Date timestamp normalization does. Fuel-bounded
structural recursion; the fuel of 48 is far above what any use here needs. -/
def normDay : Nat → JsDate → JsDate
  | 0, dt => dt
  | fuel + 1, dt =>
    if daysInMonth dt.year dt.month < dt.day then
      normDay fuel (normMonth ⟨dt.year, dt.month + 1, dt.day - daysInMonth dt.year dt.month⟩)
    else dt

/-- JS `d.setMonth(d.getMonth() + k)`: month arithmetic with year carry and
day-overflow normalization. -/
def setMonthAdd (dt : JsDate) (k : Int) : JsDate :=
  normDay 48 (normMonth ⟨dt.year, dt.month + k, dt.day⟩)

/-- JS `d.setDate(d.getDate() + n)`: day arithmetic with overflow
normalization. -/
def setDateAdd (dt : JsDate) (n : Int) : JsDate :=
  normDay 48 ⟨dt.year, dt.month, dt.day + n⟩

/-- JS `d.setFullYear(y)`: replace the year, normalizing Feb 29 of a leap year
into Mar 1 of a non-leap year. -/
def setFullYear (dt : JsDate) (y : Int) : JsDate :=
  normDay 48 ⟨y, dt.month, dt.day⟩

/-- Order-embedding of a normalized date into the integers; two normalized
dates compare (as JS timestamps of date-only values would) exactly as their
keys compare. -/
def JsDate.key (dt : JsDate) : Int :=
  dt.year * 372 + dt.month * 31 + dt.day

/-- JS `Math.round`: round half toward positive infinity. -/
def jsRound (q : ℚ) : ℤ :=
  Int.floor (q + 1 / 2)

/-- The source's `Math.round(x * 100) / 100`: round to two decimal places at
the cent boundary. -/
def round2 (q : ℚ) : ℚ :=
  (jsRound (q * 100) : ℚ) / 100

/-- ValidationError as thrown by src/src/utils/validation.ts (message, field,
code). -/
structure ValidationError where
  message : String
  field : String
  code : String
deriving DecidableEq

/-- BusinessRuleError as thrown by validateBusinessRules (message, rule,
code). -/
structure BusinessRuleError where
  message : String
  rule : String
  code : String
deriving DecidableEq

/-- A JS error value raised by a collaborator service; kept abstract as a
(name, message) pair so that error identity is value identity. -/
structure JsError where
  name : String
  message : String
deriving DecidableEq

/-- The leasing part of the application configuration (src/src/config). Only
the fields the verified functions consume are modelled. `employeeDiscounts`
is an association list because the service reads it with a dynamic
(string-typed at runtime) employee-type key. -/
structure LeasingConfig where
  maxPrice : ℚ
  employeeDiscounts : List (String × ℚ)
  longTermDiscount : ℚ
  longTermThreshold : Int
deriving DecidableEq

/-- The default configuration values of loadConfig() in src/src/config. -/
def defaultLeasingConfig : LeasingConfig :=
  { maxPrice := 1000000
    employeeDiscounts := [("STANDARD", 1), ("PREMIUM", 9 / 10), ("VIP", 4 / 5)]
    longTermDiscount := 4 / 5
    longTermThreshold := 12 }

/-- JS `x || dflt` on an optionally-present number: the default is used both
when the lookup misses and when the stored value is the falsy `0`. -/
def jsOr (v : Option ℚ) (dflt : ℚ) : ℚ :=
  match v with
  | none => dflt
  | some x => if x = 0 then dflt else x

/-- calculateDurationInMonths (service lines 340-344): calendar-month
difference, day-of-month ignored. -/
def calculateDurationInMonths (startDate endDate : JsDate) : Int :=
  (endDate.year - startDate.year) * 12 + (endDate.month - startDate.month)

/-- calculateLeasingCost (service lines 85-115): apply long-term and
employee-type multipliers to the base price, then round to cents. -/
def calculateLeasingCost (config : LeasingConfig) (price : ℚ)
    (startDate endDate : JsDate) (employeeType : String) : ℚ :=
  let durationMonths := calculateDurationInMonths startDate endDate
  let longTermMultiplier :=
    if config.longTermThreshold ≤ durationMonths then config.longTermDiscount else 1
  let employeeMultiplier := jsOr (config.employeeDiscounts.lookup employeeType) 1
  round2 (price * longTermMultiplier * employeeMultiplier)

/-- getIntervalMonths (service lines 351-358): months between payments, with
a default of 1 for any unrecognized frequency. -/
def getIntervalMonths (frequency : String) : Int :=
  if frequency = "MONTHLY" then 1
  else if frequency = "QUARTERLY" then 3
  else if frequency = "ANNUALLY" then 12
  else 1

/-- A PaymentSchedule entry (src/src/types). -/
structure PaymentSchedule where
  id : String
  dueDate : JsDate
  amount : ℚ
  status : String
  attemptCount : Nat
deriving DecidableEq

/-- A LeasingAgreement (src/src/types). `metadata` is carried as its JSON
serialization (`none` when absent); `createdAt`/`updatedAt` timestamps are
not modelled. -/
structure LeasingAgreement where
  id : String
  employeeId : String
  itemId : String
  startDate : JsDate
  endDate : JsDate
  status : String
  price : ℚ
  currency : String
  companyId : String
  paymentSchedule : List PaymentSchedule
  metadata : Option String
deriving DecidableEq

/-- totalPayments as computed at service lines 133-135:
`Math.ceil(durationMonths / intervalMonths)` — note: no lower bound of 1. -/
def totalPayments (agreement : LeasingAgreement) (frequency : String) : Int :=
  Int.ceil ((calculateDurationInMonths agreement.startDate agreement.endDate : ℚ) /
    (getIntervalMonths frequency : ℚ))

/-- paymentAmount as computed at service line 138: the evenly-distributed
per-installment amount rounded to cents. -/
def paymentAmount (agreement : LeasingAgreement) (frequency : String) : ℚ :=
  round2 (agreement.price / (totalPayments agreement frequency : ℚ))

/-- The loop at service lines 144-160. `r` counts the iterations still to
run (the last iteration, `r = 1`, pushes the remaining amount instead of the
base amount), `i` is the 0-based loop index used in the entry id, and
`currentDate` is the running due date; each entry snapshots the running
date's value (`new Date(currentDate)`). -/
def scheduleLoop (agreementId : String) (base : ℚ) (intervalMonths : Int) :
    Nat → Nat → ℚ → JsDate → List PaymentSchedule
  | 0, _, _, _ => []
  | r + 1, i, remainingAmount, currentDate =>
    let amount := if r = 0 then remainingAmount else base
    { id := agreementId ++ "-payment-" ++ toString (i + 1)
      dueDate := currentDate
      amount := amount
      status := "PENDING"
      attemptCount := 0 } ::
      scheduleLoop agreementId base intervalMonths r (i + 1) (remainingAmount - amount)
        (setMonthAdd currentDate intervalMonths)

/-- generatePaymentSchedule (service lines 123-170), value-level semantics.
When `totalPayments ≤ 0` the loop body never runs and the result is `[]`. -/
def generatePaymentSchedule (agreement : LeasingAgreement) (frequency : String) :
    List PaymentSchedule :=
  scheduleLoop agreement.id (paymentAmount agreement frequency) (getIntervalMonths frequency)
    (totalPayments agreement frequency).toNat 0 agreement.price agreement.startDate

/-! Validator (src/src/utils/validation.ts). Date strings arrive from the
request as one of three parse outcomes of `new Date(string)`; the string
itself is abstracted away. -/

/-- Outcome of parsing a request date string: absent/blank, unparseable
(an Invalid Date), or a parsed calendar date. -/
inductive DateInput
  | missing
  | unparseable
  | valid (d : JsDate)
deriving DecidableEq

/-- CreateAgreementRequest (src/src/types). `metadata` is carried as its
JSON serialization, `none` when absent. -/
structure CreateAgreementRequest where
  employeeId : String
  itemId : String
  startDate : DateInput
  endDate : DateInput
  price : ℚ
  currency : String
  companyId : String
  paymentFrequency : String
  metadata : Option String
deriving DecidableEq

/-- validateAndParseDate (validation.ts lines 53-64). -/
def validateAndParseDate (dateString : DateInput) (fieldName : String) :
    Except ValidationError JsDate :=
  match dateString with
  | .missing => .error ⟨fieldName ++ " is required", fieldName, "REQUIRED"⟩
  | .unparseable => .error ⟨fieldName ++ " must be a valid ISO date", fieldName, "INVALID_FORMAT"⟩
  | .valid d => .ok d

/-- validateDateRange (validation.ts lines 71-98). `now` is the current day
(the source compares `startDate` against `new Date(now.toDateString())`, a
date-only value, and builds `maxFutureDate` by `setFullYear(now year + 5)`
on the current instant). -/
def validateDateRange (now startDate endDate : JsDate) : Except ValidationError Unit :=
  let maxFutureDate := setFullYear now (now.year + 5)
  if startDate.key < now.key then
    .error ⟨"Start date cannot be in the past", "startDate", "PAST_DATE"⟩
  else if endDate.key ≤ startDate.key then
    .error ⟨"End date must be after start date", "endDate", "INVALID_RANGE"⟩
  else if maxFutureDate.key < endDate.key then
    .error ⟨"Lease duration cannot exceed 5 years", "endDate", "DURATION_EXCEEDED"⟩
  else if endDate.key < (setDateAdd startDate 30).key then
    .error ⟨"Minimum lease duration is 30 days", "endDate", "DURATION_TOO_SHORT"⟩
  else .ok ()

/-- validatePrice (validation.ts lines 104-121). The NaN/typeof branch has
no counterpart for a rational; the two-decimal-places check on the decimal
string rendering is modelled as: the (reduced) denominator of the price does
not divide 100, i.e. 100 times the price is not an integer. -/
def validatePrice (price : ℚ) : Except ValidationError Unit :=
  if price ≤ 0 then
    .error ⟨"Price must be greater than zero", "price", "INVALID_VALUE"⟩
  else if 1000000 < price then
    .error ⟨"Price cannot exceed 1,000,000 dollars", "price", "EXCEEDS_LIMIT"⟩
  else if 100 % price.den ≠ 0 then
    .error ⟨"Price cannot have more than 2 decimal places", "price", "INVALID_PRECISION"⟩
  else .ok ()

/-- validateCurrency (validation.ts lines 127-137). -/
def validateCurrency (currency : String) : Except ValidationError Unit :=
  if ["USD", "EUR", "GBP", "CAD"].contains currency then .ok ()
  else .error ⟨"Currency must be one of: USD, EUR, GBP, CAD", "currency", "UNSUPPORTED_CURRENCY"⟩

/-- validatePaymentFrequency (validation.ts lines 143-153). -/
def validatePaymentFrequency (frequency : String) : Except ValidationError Unit :=
  if ["MONTHLY", "QUARTERLY", "ANNUALLY"].contains frequency then .ok ()
  else .error ⟨"Payment frequency must be one of: MONTHLY, QUARTERLY, ANNUALLY",
    "paymentFrequency", "INVALID_FREQUENCY"⟩

/-- Character class of the id pattern `[a-zA-Z0-9_-]`. -/
def idChar (c : Char) : Bool :=
  c.isAlphanum || c == '-' || c == '_'

/-- validateIdFormat (validation.ts lines 160-179). -/
def validateIdFormat (id : String) (fieldName : String) : Except ValidationError Unit :=
  if id.length < 3 || 50 < id.length then
    .error ⟨fieldName ++ " must be between 3 and 50 characters", fieldName, "INVALID_LENGTH"⟩
  else if !(id.toList.all idChar) then
    .error ⟨fieldName ++ " contains invalid characters", fieldName, "INVALID_FORMAT"⟩
  else .ok ()

/-- JS `!s?.trim()` on a present string: the string trims to empty, i.e. it
consists only of whitespace. -/
def blankString (s : String) : Bool :=
  s.toList.all Char.isWhitespace

/-- validateCreateAgreementRequest (validation.ts lines 16-45): the full
request-validation pipeline, short-circuiting at the first failure. Note
that it never invokes `validateMetadata`. -/
def validateCreateAgreementRequest (now : JsDate) (request : CreateAgreementRequest) :
    Except ValidationError Unit := do
  if blankString request.employeeId then
    throw ⟨"Employee ID is required", "employeeId", "REQUIRED"⟩
  if blankString request.itemId then
    throw ⟨"Item ID is required", "itemId", "REQUIRED"⟩
  if blankString request.companyId then
    throw ⟨"Company ID is required", "companyId", "REQUIRED"⟩
  let startDate ← validateAndParseDate request.startDate "startDate"
  let endDate ← validateAndParseDate request.endDate "endDate"
  validateDateRange now startDate endDate
  validatePrice request.price
  validateCurrency request.currency
  validatePaymentFrequency request.paymentFrequency
  validateIdFormat request.employeeId "employeeId"
  validateIdFormat request.itemId "itemId"
  validateIdFormat request.companyId "companyId"

/-- Substring test on character lists (JS `String.prototype.includes`). -/
def containsSubstr (needle : List Char) : List Char → Bool
  | [] => needle.isPrefixOf []
  | c :: rest => needle.isPrefixOf (c :: rest) || containsSubstr needle rest

/-- validateMetadata (validation.ts lines 197-210), applied to the JSON
serialization of the metadata object. -/
def validateMetadata (metadata : Option String) : Except ValidationError Unit :=
  match metadata with
  | none => .ok ()
  | some serialized =>
    if 10000 < serialized.length then
      .error ⟨"Metadata size cannot exceed 10KB", "metadata", "SIZE_EXCEEDED"⟩
    else if (containsSubstr "<script>".toList serialized.toList
        || containsSubstr "javascript:".toList serialized.toList) then
      .error ⟨"Metadata contains prohibited content", "metadata", "PROHIBITED_CONTENT"⟩
    else .ok ()

/-- validateBusinessRules (service lines 176-211). The two collaborator
answers (employee belongs to company; item currently available) are passed
as oracle booleans; the price-ceiling check reads the raw request price. -/
def validateBusinessRules (config : LeasingConfig) (isValidEmployee isItemAvailable : Bool)
    (request : CreateAgreementRequest) : Except BusinessRuleError Unit :=
  if !isValidEmployee then
    .error ⟨"Employee does not exist or does not belong to specified company",
      "EMPLOYEE_VALIDATION", "INVALID_EMPLOYEE"⟩
  else if !isItemAvailable then
    .error ⟨"Requested item is not available for leasing", "ITEM_AVAILABILITY", "ITEM_UNAVAILABLE"⟩
  else if config.maxPrice < request.price then
    .error ⟨"Price exceeds maximum allowed amount of " ++ toString config.maxPrice,
      "PRICE_LIMIT", "PRICE_EXCEEDED"⟩
  else .ok ()

/-- createAgreementFromRequest (service lines 218-260). `employeeType` is
the employee-directory answer, `newId` the generated agreement id, and
`startDate`/`endDate` the parses of the request's date strings. The factory
is a total function: it applies no price-ceiling (or any other) check. -/
def createAgreementFromRequest (config : LeasingConfig) (employeeType : String)
    (newId : String) (startDate endDate : JsDate) (request : CreateAgreementRequest) :
    LeasingAgreement :=
  let totalCost := calculateLeasingCost config request.price startDate endDate employeeType
  let tempAgreement : LeasingAgreement :=
    { id := newId
      employeeId := request.employeeId
      itemId := request.itemId
      startDate := startDate
      endDate := endDate
      status := "DRAFT"
      price := totalCost
      currency := request.currency
      companyId := request.companyId
      paymentSchedule := []
      metadata := request.metadata }
  { tempAgreement with
    paymentSchedule := generatePaymentSchedule tempAgreement request.paymentFrequency }

/-! Transaction executor (service lines 268-332): the saga with LIFO
compensation. Collaborator outcomes are oracle parameters; the run is
summarized by its result plus a trace of the side effects performed. -/

/-- A compensator registered on the `operations` list (the source pushes
closures; the only compensator this saga ever registers is the inventory
release of service line 278). -/
inductive CompAction
  | releaseItem (itemId : String)
deriving DecidableEq

/-- Observable side effects of one saga run. -/
inductive TxEvent
  | reserveItem
  | saveAgreement (status : String)
  | createBilling
  | notifySent
  | notifyFailed
  | releaseItem
  | releaseItemFailed
deriving DecidableEq

/-- Outcomes of the collaborator calls a single saga run can make. -/
structure TxEnv where
  reserveResult : Except JsError Unit
  saveResult : Except JsError Unit
  billingResult : Except JsError String
  notifyResult : Except JsError Unit
  save2Result : Except JsError Unit
  releaseResult : Except JsError Unit

/-- Run one registered compensator (the `try await rollback() catch log`
body of service lines 320-327): its own failure is caught and logged, never
propagated. -/
def runCompensator (env : TxEnv) (op : CompAction) : TxEvent :=
  match op with
  | .releaseItem _ =>
    match env.releaseResult with
    | .ok _ => .releaseItem
    | .error _ => .releaseItemFailed

/-- The rollback loop body: run every compensator in list order, never
stopping early. -/
def runRollbacks (env : TxEnv) : List CompAction → List TxEvent
  | [] => []
  | op :: rest => runCompensator env op :: runRollbacks env rest

/-- The catch-block of service lines 317-331: run the registered
compensators in reverse registration order (`operations.reverse()`). -/
def compensate (env : TxEnv) (operations : List CompAction) : List TxEvent :=
  runRollbacks env operations.reverse

/-- executeAgreementTransaction (service lines 268-332): reserve inventory
(registering its release as a compensator), persist as PENDING, create the
billing record, send the best-effort notification, persist as ACTIVE; on a
fatal step failure compensate and re-throw the original error. -/
def executeAgreementTransaction (env : TxEnv) (agreement : LeasingAgreement) :
    Except JsError LeasingAgreement × List TxEvent :=
  match env.reserveResult with
  | .error e => (.error e, compensate env [])
  | .ok _ =>
    let operations := [CompAction.releaseItem agreement.itemId]
    let trace0 := [TxEvent.reserveItem]
    match env.saveResult with
    | .error e => (.error e, trace0 ++ compensate env operations)
    | .ok _ =>
      let savedAgreement := { agreement with status := "PENDING" }
      let trace1 := trace0 ++ [TxEvent.saveAgreement "PENDING"]
      match env.billingResult with
      | .error e => (.error e, trace1 ++ compensate env operations)
      | .ok _ =>
        let trace2 := trace1 ++ [TxEvent.createBilling]
        let notifyEvent :=
          match env.notifyResult with
          | .ok _ => TxEvent.notifySent
          | .error _ => TxEvent.notifyFailed
        let trace3 := trace2 ++ [notifyEvent]
        match env.save2Result with
        | .error e => (.error e, trace3 ++ compensate env operations)
        | .ok _ =>
          (.ok { savedAgreement with status := "ACTIVE" },
            trace3 ++ [TxEvent.saveAgreement "ACTIVE"])

/-- Replay of a trace against the mock inventory of the test suite: an item
starts unreserved, `reserveItem` reserves it, a successful `releaseItem`
frees it. -/
def inventoryReserved (events : List TxEvent) : Bool :=
  events.foldl
    (fun st e =>
      match e with
      | .reserveItem => true
      | .releaseItem => false
      | _ => st)
    false

/-- checkAvailability after a saga run: the item is available again iff it
is not left reserved by the trace. -/
def checkAvailability (events : List TxEvent) : Bool :=
  !(inventoryReserved events)

/-! Heap-instrumented payment-schedule generator, for the date-aliasing
properties. JS `Date` objects are mutable heap cells; `new Date(d)` copies
the value of `d` into a fresh cell and `setMonth` mutates a cell in place. -/

/-- A heap of JS Date objects: an allocation counter and the value stored
at each address. -/
structure Heap where
  next : Nat
  val : Nat → JsDate

/-- Allocate a fresh Date object holding value `v` (JS `new Date(...)`). -/
def Heap.alloc (h : Heap) (v : JsDate) : Heap × Nat :=
  ({ next := h.next + 1, val := fun r => if r = h.next then v else h.val r }, h.next)

/-- Read a Date object's current value. -/
def Heap.get (h : Heap) (r : Nat) : JsDate :=
  h.val r

/-- Mutate a Date object in place (JS `setMonth` and friends). -/
def Heap.set (h : Heap) (r : Nat) (v : JsDate) : Heap :=
  { h with val := fun x => if x = r then v else h.val x }

/-- The loop of service lines 144-160 at heap level: each iteration
allocates a fresh copy of `currentRef`'s value for the entry's `dueDate`
(`new Date(currentDate)`, line 150), then advances `currentRef` in place
(`currentDate.setMonth(...)`, line 159). Returns the final heap and the
entries' `dueDate` addresses in order. -/
def scheduleLoopH (intervalMonths : Int) : Nat → Heap → Nat → List Nat → Heap × List Nat
  | 0, h, _, acc => (h, acc)
  | r + 1, h, currentRef, acc =>
    let allocated := h.alloc (h.get currentRef)
    let h2 := allocated.1.set currentRef (setMonthAdd (allocated.1.get currentRef) intervalMonths)
    scheduleLoopH intervalMonths r h2 currentRef (acc ++ [allocated.2])

/-- generatePaymentSchedule at heap level: allocate the loop's running date
(`new Date(agreement.startDate)`, line 142) and run the loop. Returns the
final heap, the running date's address, and the entries' `dueDate`
addresses. -/
def generatePaymentScheduleH (agreement : LeasingAgreement) (frequency : String) :
    Heap × Nat × List Nat :=
  let h0 : Heap := { next := 0, val := fun _ => ⟨1970, 0, 1⟩ }
  let started := h0.alloc agreement.startDate
  let looped := scheduleLoopH (getIntervalMonths frequency)
    (totalPayments agreement frequency).toNat started.1 started.2 []
  (looped.1, started.2, looped.2)

/-- Advancing a date `j` successive times by `k` months (the trajectory the
loop's running date follows). -/
def addMonthsIter (k : Int) : Nat → JsDate → JsDate
  | 0, d => d
  | j + 1, d => addMonthsIter k j (setMonthAdd d k)

/-! Concrete fixtures used by witnesses and counterexamples. -/

/-- The schedule fixture of the test suite: price 100 over three calendar
months, paid monthly. -/
def exAgreement : LeasingAgreement :=
  { id := "LA-1"
    employeeId := "emp1"
    itemId := "item1"
    startDate := ⟨2025, 0, 1⟩
    endDate := ⟨2025, 3, 1⟩
    status := "DRAFT"
    price := 100
    currency := "USD"
    companyId := "comp1"
    paymentSchedule := []
    metadata := none }

/-- A 30-day lease contained in a single calendar month (Jan 1 to Jan 31):
the validator accepts it, yet its calendar-month duration is 0. -/
def degenerateAgreement : LeasingAgreement :=
  { id := "LA-2"
    employeeId := "emp1"
    itemId := "item1"
    startDate := ⟨2025, 0, 1⟩
    endDate := ⟨2025, 0, 31⟩
    status := "DRAFT"
    price := 100
    currency := "USD"
    companyId := "comp1"
    paymentSchedule := []
    metadata := none }

/-! Helper lemmas. -/

/-- Evaluate an integer ceiling of a rational by sandwiching. -/
lemma intCeil_eval (q : ℚ) (n : ℤ) (h1 : (n : ℚ) - 1 < q) (h2 : q ≤ (n : ℚ)) :
    Int.ceil q = n := Int.ceil_eq_iff.mpr ⟨h1, h2⟩

/-- Evaluate jsRound by sandwiching. -/
lemma jsRound_eval (q : ℚ) (n : ℤ) (h1 : (n : ℚ) ≤ q + 1 / 2) (h2 : q + 1 / 2 < (n : ℚ) + 1) :
    jsRound q = n := Int.floor_eq_iff.mpr ⟨h1, h2⟩

/-- Evaluate round2 by sandwiching the scaled value. -/
lemma round2_eval (q : ℚ) (n : ℤ) (h1 : (n : ℚ) ≤ q * 100 + 1 / 2)
    (h2 : q * 100 + 1 / 2 < (n : ℚ) + 1) : round2 q = (n : ℚ) / 100 := by
  unfold round2
  rw [jsRound_eval (q * 100) n h1 h2]

/-- jsRound of a nonnegative rational is nonnegative. -/
lemma jsRound_nonneg (q : ℚ) (h : 0 ≤ q) : 0 ≤ jsRound q := by
  unfold jsRound
  rw [Int.le_floor]
  push_cast
  linarith

/-- round2 of a nonnegative rational is nonnegative. -/
lemma round2_nonneg (q : ℚ) (h : 0 ≤ q) : 0 ≤ round2 q := by
  unfold round2
  have := jsRound_nonneg (q * 100) (by positivity)
  positivity

/-- Closed form of the amounts emitted by the schedule loop: `r` base
installments followed by the running remainder. -/
lemma scheduleLoop_map_amount (agreementId : String) (base : ℚ) (k : Int) :
    ∀ (r i : Nat) (rem : ℚ) (cur : JsDate),
      (scheduleLoop agreementId base k (r + 1) i rem cur).map (fun p => p.amount)
        = List.replicate r base ++ [rem - (r : ℚ) * base] := by
  intro r
  induction r with
  | zero =>
    intro i rem cur
    simp [scheduleLoop]
  | succ s ih =>
    intro i rem cur
    rw [show scheduleLoop agreementId base k (s + 1 + 1) i rem cur
        = { id := agreementId ++ "-payment-" ++ toString (i + 1)
            dueDate := cur
            amount := base
            status := "PENDING"
            attemptCount := 0 } ::
          scheduleLoop agreementId base k (s + 1) (i + 1) (rem - base) (setMonthAdd cur k)
      from rfl]
    rw [List.map_cons, ih]
    rw [List.replicate_succ, List.cons_append]
    push_cast
    ring_nf

/-- The schedule loop's amounts always telescope back to the remaining
amount it was started with. -/
lemma scheduleLoop_sum (agreementId : String) (base : ℚ) (k : Int) (r i : Nat) (rem : ℚ)
    (cur : JsDate) :
    ((scheduleLoop agreementId base k (r + 1) i rem cur).map (fun p => p.amount)).sum = rem := by
  rw [scheduleLoop_map_amount]
  rw [List.sum_append, List.sum_replicate, List.sum_cons, List.sum_nil]
  simp [nsmul_eq_mul]

/-- The rollback loop visits every registered compensator, in list order,
regardless of individual compensator failures. -/
lemma runRollbacks_eq_map (env : TxEnv) (l : List CompAction) :
    runRollbacks env l = l.map (runCompensator env) := by
  induction l with
  | nil => rfl
  | cons op rest ih => simp [runRollbacks, ih]

/-- Evaluation of the example agreement's payment count. -/
lemma exAgreement_totalPayments : totalPayments exAgreement "MONTHLY" = 3 := by
  simp only [totalPayments, calculateDurationInMonths, getIntervalMonths, exAgreement]
  norm_num

/-! C1 -/

/-- C1 (amended): for every agreement and frequency for which the computed
number of payments is at least 1, the generated schedule's amounts sum
exactly to the agreement's price, every entry except the last carries the
rounded base amount, and the last entry absorbs the full remainder. (The
unamended claim fails when the computed number of payments is 0, see the
counterexample.) -/
theorem schedule_sum_invariant (agreement : LeasingAgreement) (frequency : String)
    (h : 1 ≤ totalPayments agreement frequency) :
    ((generatePaymentSchedule agreement frequency).map (fun p => p.amount)).sum
        = agreement.price
    ∧ (generatePaymentSchedule agreement frequency).map (fun p => p.amount)
        = List.replicate ((totalPayments agreement frequency).toNat - 1)
            (paymentAmount agreement frequency)
          ++ [agreement.price
              - (((totalPayments agreement frequency).toNat - 1 : ℕ) : ℚ)
                * paymentAmount agreement frequency] := by
  have hn : (totalPayments agreement frequency).toNat
      = ((totalPayments agreement frequency).toNat - 1) + 1 := by omega
  unfold generatePaymentSchedule
  rw [hn]
  exact ⟨scheduleLoop_sum _ _ _ _ _ _ _, scheduleLoop_map_amount _ _ _ _ _ _ _⟩

/-- C1 witness: the test suite's 100-over-3-months agreement satisfies the
hypothesis and the invariant. -/
theorem schedule_sum_invariant_witness :
    1 ≤ totalPayments exAgreement "MONTHLY"
    ∧ ((generatePaymentSchedule exAgreement "MONTHLY").map (fun p => p.amount)).sum
        = exAgreement.price := by
  have h : 1 ≤ totalPayments exAgreement "MONTHLY" := by
    rw [exAgreement_totalPayments]; norm_num
  exact ⟨h, (schedule_sum_invariant exAgreement "MONTHLY" h).1⟩

/-- C1 counterexample: a validator-accepted 30-day lease inside one calendar
month gets an empty schedule, whose amount sum 0 differs from its price
100. -/
theorem schedule_sum_invariant_cx :
    ((generatePaymentSchedule degenerateAgreement "MONTHLY").map (fun p => p.amount)).sum
      ≠ degenerateAgreement.price := by
  have h0 : totalPayments degenerateAgreement "MONTHLY" = 0 := by
    simp only [totalPayments, calculateDurationInMonths, getIntervalMonths, degenerateAgreement]
    norm_num
  unfold generatePaymentSchedule
  rw [h0]
  simp only [Int.toNat_zero, scheduleLoop, List.map_nil, List.sum_nil]
  simp [degenerateAgreement]

/-! C3 -/

/-- C3 (code bug): for the degenerate-duration boundary the spec requires a
minimum of one payment covering the full amount, but the code computes
`Math.ceil(duration / interval)` with no lower bound: on a validator-accepted
30-day lease contained in one calendar month the computed payment count is 0
and the generator returns an empty schedule instead of one full payment. -/
theorem totalPayments_zero_empty_schedule :
    validateDateRange ⟨2025, 0, 1⟩ degenerateAgreement.startDate degenerateAgreement.endDate
        = .ok ()
    ∧ totalPayments degenerateAgreement "MONTHLY" = 0
    ∧ generatePaymentSchedule degenerateAgreement "MONTHLY" = [] := by
  refine ⟨by rfl, ?_, ?_⟩
  · simp only [totalPayments, calculateDurationInMonths, getIntervalMonths, degenerateAgreement]
    norm_num
  · have h0 : totalPayments degenerateAgreement "MONTHLY" = 0 := by
      simp only [totalPayments, calculateDurationInMonths, getIntervalMonths, degenerateAgreement]
      norm_num
    unfold generatePaymentSchedule
    rw [h0]
    rfl

/-! C9 -/

/-- C9: every frequency outside MONTHLY/QUARTERLY/ANNUALLY maps to a
1-month interval, so the generator treats it exactly like MONTHLY. -/
theorem unknown_frequency_is_monthly (frequency : String)
    (h1 : frequency ≠ "MONTHLY") (h2 : frequency ≠ "QUARTERLY") (h3 : frequency ≠ "ANNUALLY") :
    getIntervalMonths frequency = 1
    ∧ ∀ agreement : LeasingAgreement,
        generatePaymentSchedule agreement frequency
          = generatePaymentSchedule agreement "MONTHLY" := by
  have hi : getIntervalMonths frequency = 1 := by
    unfold getIntervalMonths
    simp [h1, h2, h3]
  refine ⟨hi, fun agreement => ?_⟩
  unfold generatePaymentSchedule paymentAmount totalPayments
  rw [hi, show getIntervalMonths "MONTHLY" = 1 from rfl]

/-- C9 witness: the unrecognized frequency WEEKLY behaves exactly like
MONTHLY on the example agreement. -/
theorem unknown_frequency_is_monthly_witness :
    ("WEEKLY" ≠ "MONTHLY" ∧ "WEEKLY" ≠ "QUARTERLY" ∧ "WEEKLY" ≠ "ANNUALLY")
    ∧ getIntervalMonths "WEEKLY" = 1
    ∧ generatePaymentSchedule exAgreement "WEEKLY"
        = generatePaymentSchedule exAgreement "MONTHLY" := by
  have h := unknown_frequency_is_monthly "WEEKLY" (by decide) (by decide) (by decide)
  exact ⟨⟨by decide, by decide, by decide⟩, h.1, h.2 exAgreement⟩

/-! C4 -/

/-- C4 (amended): given that the earlier PAST_DATE and INVALID_RANGE checks
pass, the validator raises DURATION_EXCEEDED if and only if the end date is
after the validation-time current day advanced by 5 years — the limit is
measured from the current day, not from the start date (the unamended claim
asserts the opposite; see the counterexample). -/
theorem duration_exceeded_measured_from_today (now startDate endDate : JsDate)
    (h1 : ¬ startDate.key < now.key) (h2 : ¬ endDate.key ≤ startDate.key) :
    validateDateRange now startDate endDate
        = .error ⟨"Lease duration cannot exceed 5 years", "endDate", "DURATION_EXCEEDED"⟩
      ↔ (setFullYear now (now.year + 5)).key < endDate.key := by
  unfold validateDateRange
  simp only [if_neg h1, if_neg h2]
  by_cases h3 : (setFullYear now (now.year + 5)).key < endDate.key
  · simp [h3]
  · rw [if_neg h3]
    split_ifs with h4 <;> simp [h3]

/-- C4 witness: a lease from Jan 1 2025 (validated that day) to Jan 1 2031
trips the 5-year check. -/
theorem duration_exceeded_measured_from_today_witness :
    ¬ (⟨2025, 0, 1⟩ : JsDate).key < (⟨2025, 0, 1⟩ : JsDate).key
    ∧ ¬ (⟨2031, 0, 1⟩ : JsDate).key ≤ (⟨2025, 0, 1⟩ : JsDate).key
    ∧ (validateDateRange ⟨2025, 0, 1⟩ ⟨2025, 0, 1⟩ ⟨2031, 0, 1⟩
          = .error ⟨"Lease duration cannot exceed 5 years", "endDate", "DURATION_EXCEEDED"⟩
        ↔ (setFullYear ⟨2025, 0, 1⟩ ((2025 : Int) + 5)).key < (⟨2031, 0, 1⟩ : JsDate).key) := by
  refine ⟨by decide, by decide, ?_⟩
  exact duration_exceeded_measured_from_today ⟨2025, 0, 1⟩ ⟨2025, 0, 1⟩ ⟨2031, 0, 1⟩
    (by decide) (by decide)

/-- C4 counterexample: validated on Oct 12 2025, a lease from Oct 1 2026 to
Jun 1 2031 spans less than 5 years from its start date, yet the validator
raises DURATION_EXCEEDED because the end date lies more than 5 years after
the validation day. -/
theorem duration_exceeded_measured_from_today_cx :
    validateDateRange ⟨2025, 9, 12⟩ ⟨2026, 9, 1⟩ ⟨2031, 5, 1⟩
        = .error ⟨"Lease duration cannot exceed 5 years", "endDate", "DURATION_EXCEEDED"⟩
    ∧ (⟨2031, 5, 1⟩ : JsDate).key ≤ (setFullYear ⟨2026, 9, 1⟩ ((2026 : Int) + 5)).key := by
  exact ⟨by rfl, by decide⟩

/-! C5 -/

/-- The current day used by the C5 fixtures. -/
def exNow : JsDate := ⟨2025, 9, 1⟩

/-- A creation request that passes every wired check but whose metadata
serialization contains a `javascript:` marker. -/
def prohibitedRequest : CreateAgreementRequest :=
  { employeeId := "emp1"
    itemId := "item1"
    companyId := "comp1"
    startDate := .valid ⟨2025, 9, 15⟩
    endDate := .valid ⟨2026, 0, 15⟩
    price := 1000
    currency := "USD"
    paymentFrequency := "MONTHLY"
    metadata := some "\x7b\"link\":\"javascript:alert(1)\"\x7d" }

/-- C5 (code bug): the metadata check is not part of the request-validation
pipeline. validateCreateAgreementRequest ignores the metadata entirely (its
result is invariant under any change of metadata), and a request whose
metadata validateMetadata would reject with PROHIBITED_CONTENT passes the
pipeline — validateMetadata is defined but never invoked. -/
theorem metadata_check_not_wired :
    (∀ (now : JsDate) (request : CreateAgreementRequest) (m m' : Option String),
      validateCreateAgreementRequest now { request with metadata := m }
        = validateCreateAgreementRequest now { request with metadata := m' })
    ∧ validateCreateAgreementRequest exNow prohibitedRequest = .ok ()
    ∧ validateMetadata prohibitedRequest.metadata
        = .error ⟨"Metadata contains prohibited content", "metadata", "PROHIBITED_CONTENT"⟩ :=
  ⟨fun _ _ _ _ => rfl, rfl, rfl⟩

/-! C6 -/

/-- C6: over the default configuration, calculateLeasingCost is exactly the
rounded product of the base price, the long-term multiplier (0.8 from 12
calendar months, else 1) and the employee-tier multiplier (1 / 0.9 / 0.8 for
STANDARD / PREMIUM / VIP, defaulting to 1 for an unknown tier); it is
nonnegative on nonnegative prices, and it reproduces the spec's discount
composition table, in particular cost(1000, 17 months, PREMIUM) = 720. -/
theorem cost_discount_composition :
    (∀ (price : ℚ) (s e : JsDate) (tier : String),
      calculateLeasingCost defaultLeasingConfig price s e tier
        = round2 (price
            * (if 12 ≤ calculateDurationInMonths s e then 4 / 5 else 1)
            * (if tier = "STANDARD" then 1
               else if tier = "PREMIUM" then 9 / 10
               else if tier = "VIP" then 4 / 5
               else 1)))
    ∧ (∀ (price : ℚ) (s e : JsDate) (tier : String), 0 ≤ price →
        0 ≤ calculateLeasingCost defaultLeasingConfig price s e tier)
    ∧ calculateLeasingCost defaultLeasingConfig 1000 ⟨2025, 6, 1⟩ ⟨2025, 11, 1⟩ "STANDARD" = 1000
    ∧ calculateLeasingCost defaultLeasingConfig 1000 ⟨2025, 6, 1⟩ ⟨2025, 11, 1⟩ "PREMIUM" = 900
    ∧ calculateLeasingCost defaultLeasingConfig 1000 ⟨2025, 6, 1⟩ ⟨2025, 11, 1⟩ "VIP" = 800
    ∧ calculateLeasingCost defaultLeasingConfig 1000 ⟨2025, 0, 1⟩ ⟨2026, 5, 1⟩ "STANDARD" = 800
    ∧ calculateLeasingCost defaultLeasingConfig 1000 ⟨2025, 0, 1⟩ ⟨2026, 5, 1⟩ "PREMIUM" = 720 := by
  have hlook : ∀ tier : String,
      jsOr (List.lookup tier defaultLeasingConfig.employeeDiscounts) 1
        = (if tier = "STANDARD" then 1
           else if tier = "PREMIUM" then 9 / 10
           else if tier = "VIP" then 4 / 5
           else (1 : ℚ)) := by
    intro tier
    by_cases h1 : tier = "STANDARD"
    · norm_num [defaultLeasingConfig, List.lookup, jsOr, h1]
    · by_cases h2 : tier = "PREMIUM"
      · subst h2
        rw [if_neg h1, if_pos rfl,
          show List.lookup "PREMIUM" defaultLeasingConfig.employeeDiscounts = some (9 / 10)
            from rfl]
        norm_num [jsOr]
      · by_cases h3 : tier = "VIP"
        · subst h3
          rw [if_neg h1, if_neg h2, if_pos rfl,
            show List.lookup "VIP" defaultLeasingConfig.employeeDiscounts = some (4 / 5)
              from rfl]
          norm_num [jsOr]
        · have hb1 : (tier == "STANDARD") = false := by simp [h1]
          have hb2 : (tier == "PREMIUM") = false := by simp [h2]
          have hb3 : (tier == "VIP") = false := by simp [h3]
          simp [defaultLeasingConfig, List.lookup, jsOr, hb1, hb2, hb3, h1, h2, h3]
  have hform : ∀ (price : ℚ) (s e : JsDate) (tier : String),
      calculateLeasingCost defaultLeasingConfig price s e tier
        = round2 (price
            * (if 12 ≤ calculateDurationInMonths s e then 4 / 5 else 1)
            * (if tier = "STANDARD" then 1
               else if tier = "PREMIUM" then 9 / 10
               else if tier = "VIP" then 4 / 5
               else 1)) := by
    intro price s e tier
    unfold calculateLeasingCost
    rw [hlook]
    rfl
  refine ⟨hform, ?_, ?_, ?_, ?_, ?_, ?_⟩
  · intro price s e tier hp
    rw [hform]
    apply round2_nonneg
    have h1 : 0 ≤ (if 12 ≤ calculateDurationInMonths s e then (4 / 5 : ℚ) else 1) := by
      split_ifs <;> norm_num
    have h2 : 0 ≤ (if tier = "STANDARD" then 1
        else if tier = "PREMIUM" then 9 / 10
        else if tier = "VIP" then 4 / 5
        else (1 : ℚ)) := by
      split_ifs <;> norm_num
    exact mul_nonneg (mul_nonneg hp h1) h2
  · rw [hform]
    norm_num [calculateDurationInMonths]
    rw [round2_eval _ 100000 (by norm_num) (by norm_num)]
    norm_num
  · rw [hform]
    norm_num [calculateDurationInMonths, show ("PREMIUM" = "STANDARD") = False by simp]
    rw [round2_eval _ 90000 (by norm_num) (by norm_num)]
    norm_num
  · rw [hform]
    norm_num [calculateDurationInMonths, show ("VIP" = "STANDARD") = False by simp,
      show ("VIP" = "PREMIUM") = False by simp]
    rw [round2_eval _ 80000 (by norm_num) (by norm_num)]
    norm_num
  · rw [hform]
    norm_num [calculateDurationInMonths]
    rw [round2_eval _ 80000 (by norm_num) (by norm_num)]
    norm_num
  · rw [hform]
    norm_num [calculateDurationInMonths, show ("PREMIUM" = "STANDARD") = False by simp]
    rw [round2_eval _ 72000 (by norm_num) (by norm_num)]
    norm_num

/-- C6 witness: the nonnegativity clause instantiated at the 17-month
PREMIUM example. -/
theorem cost_discount_composition_witness :
    0 ≤ (1000 : ℚ)
    ∧ 0 ≤ calculateLeasingCost defaultLeasingConfig 1000 ⟨2025, 0, 1⟩ ⟨2026, 5, 1⟩ "PREMIUM" :=
  ⟨by norm_num,
    cost_discount_composition.2.1 1000 ⟨2025, 0, 1⟩ ⟨2026, 5, 1⟩ "PREMIUM" (by norm_num)⟩

/-! C10 -/

/-- A configuration with an employee multiplier above 1, used to exhibit
that the factory never re-checks the price ceiling. -/
def overCfg : LeasingConfig :=
  { maxPrice := 100
    employeeDiscounts := [("VIP", 2)]
    longTermDiscount := 4 / 5
    longTermThreshold := 12 }

/-- A request priced exactly at `overCfg`'s ceiling. -/
def overReq : CreateAgreementRequest :=
  { employeeId := "emp1"
    itemId := "item1"
    companyId := "comp1"
    startDate := .valid ⟨2025, 0, 1⟩
    endDate := .valid ⟨2025, 2, 1⟩
    price := 100
    currency := "USD"
    paymentFrequency := "MONTHLY"
    metadata := none }

/-- C10: with the employee and availability checks passing,
validateBusinessRules raises PRICE_EXCEEDED exactly when the raw request
price exceeds the configured ceiling; the factory's agreement price is the
discounted cost and the factory applies no ceiling check — concretely, a
request at the ceiling passes the business rules while the factory then
produces an agreement priced strictly above the ceiling. -/
theorem price_ceiling_checks_raw_price_only :
    (∀ (config : LeasingConfig) (request : CreateAgreementRequest),
      validateBusinessRules config true true request
          = .error ⟨"Price exceeds maximum allowed amount of " ++ toString config.maxPrice,
              "PRICE_LIMIT", "PRICE_EXCEEDED"⟩
        ↔ config.maxPrice < request.price)
    ∧ (∀ (config : LeasingConfig) (employeeType newId : String) (s e : JsDate)
        (request : CreateAgreementRequest),
        (createAgreementFromRequest config employeeType newId s e request).price
          = calculateLeasingCost config request.price s e employeeType)
    ∧ validateBusinessRules overCfg true true overReq = .ok ()
    ∧ (createAgreementFromRequest overCfg "VIP" "LA-X" ⟨2025, 0, 1⟩ ⟨2025, 2, 1⟩ overReq).price
        = 200
    ∧ overCfg.maxPrice < 200 := by
  refine ⟨?_, fun _ _ _ _ _ _ => rfl, rfl, ?_, by norm_num [overCfg]⟩
  · intro config request
    unfold validateBusinessRules
    simp only [Bool.not_true, Bool.false_eq_true, if_false]
    split_ifs with h
    · simp [h]
    · simp [h]
  · show calculateLeasingCost overCfg 100 ⟨2025, 0, 1⟩ ⟨2025, 2, 1⟩ "VIP" = 200
    unfold calculateLeasingCost calculateDurationInMonths overCfg
    simp [List.lookup, jsOr]
    rw [round2_eval _ 20000 (by norm_num) (by norm_num)]
    norm_num

/-! C2 -/

/-- Collaborator outcomes for a run whose billing step fails. -/
def billingFailEnv : TxEnv :=
  { reserveResult := .ok ()
    saveResult := .ok ()
    billingResult := .error ⟨"Error", "Billing failed"⟩
    notifyResult := .ok ()
    save2Result := .ok ()
    releaseResult := .ok () }

/-- C2: when billing fails after a successful inventory reservation, the
saga invokes the inventory-release compensator (so a successful release
leaves the item available again), a failing compensator is caught and the
original billing error is still re-thrown, the rollback loop runs every
registered compensator in reverse registration order regardless of
individual compensator failures, and the error surfaced to the caller is
the original billing error value, unwrapped. -/
theorem billing_failure_rolls_back_inventory (env : TxEnv) (agreement : LeasingAgreement)
    (e : JsError) (hr : env.reserveResult = .ok ()) (hs : env.saveResult = .ok ())
    (hb : env.billingResult = .error e) :
    (executeAgreementTransaction env agreement).1 = .error e
    ∧ (TxEvent.releaseItem ∈ (executeAgreementTransaction env agreement).2
       ∨ TxEvent.releaseItemFailed ∈ (executeAgreementTransaction env agreement).2)
    ∧ (env.releaseResult = .ok () →
        checkAvailability (executeAgreementTransaction env agreement).2 = true)
    ∧ (∀ e' : JsError, env.releaseResult = .error e' →
        TxEvent.releaseItemFailed ∈ (executeAgreementTransaction env agreement).2
        ∧ (executeAgreementTransaction env agreement).1 = .error e)
    ∧ (∀ operations : List CompAction,
        compensate env operations = operations.reverse.map (runCompensator env)) := by
  refine ⟨?_, ?_, ?_, ?_, fun operations => runRollbacks_eq_map env operations.reverse⟩
  · simp [executeAgreementTransaction, hr, hs, hb]
  · rcases hrel : env.releaseResult with e' | u
    · exact Or.inr (by
        simp [executeAgreementTransaction, hr, hs, hb, compensate, runRollbacks,
          runCompensator, hrel])
    · exact Or.inl (by
        simp [executeAgreementTransaction, hr, hs, hb, compensate, runRollbacks,
          runCompensator, hrel])
  · intro hrel
    simp [executeAgreementTransaction, hr, hs, hb, compensate, runRollbacks, runCompensator,
      hrel, checkAvailability, inventoryReserved]
  · intro e' hrel
    constructor
    · simp [executeAgreementTransaction, hr, hs, hb, compensate, runRollbacks, runCompensator,
        hrel]
    · simp [executeAgreementTransaction, hr, hs, hb]

/-- C2 witness: the concrete failing-billing environment of the test suite
('Billing failed'), run against the example agreement. -/
theorem billing_failure_rolls_back_inventory_witness :
    billingFailEnv.reserveResult = .ok ()
    ∧ billingFailEnv.saveResult = .ok ()
    ∧ billingFailEnv.billingResult = .error ⟨"Error", "Billing failed"⟩
    ∧ (executeAgreementTransaction billingFailEnv exAgreement).1
        = .error ⟨"Error", "Billing failed"⟩
    ∧ checkAvailability (executeAgreementTransaction billingFailEnv exAgreement).2 = true := by
  have h := billing_failure_rolls_back_inventory billingFailEnv exAgreement
    ⟨"Error", "Billing failed"⟩ rfl rfl rfl
  exact ⟨rfl, rfl, rfl, h.1, h.2.2.1 rfl⟩

/-! C7 -/

/-- Collaborator outcomes for a run whose only failure is the
notification. -/
def notifyFailEnv : TxEnv :=
  { reserveResult := .ok ()
    saveResult := .ok ()
    billingResult := .ok "bill-1"
    notifyResult := .error ⟨"Error", "SMTP down"⟩
    save2Result := .ok ()
    releaseResult := .ok () }

/-- C7: a failing notification step is caught inside the saga: the run
still returns the ACTIVE agreement, the failure is logged (a notifyFailed
event appears in the trace), no compensator runs, and the caller-visible
result is identical to the run in which the notification succeeded. -/
theorem notification_failure_suppressed (env : TxEnv) (agreement : LeasingAgreement)
    (ne : JsError) (hr : env.reserveResult = .ok ()) (hs : env.saveResult = .ok ())
    (hb : ∃ billingId, env.billingResult = .ok billingId)
    (hn : env.notifyResult = .error ne) (h2 : env.save2Result = .ok ()) :
    (executeAgreementTransaction env agreement).1
        = .ok { agreement with status := "ACTIVE" }
    ∧ TxEvent.notifyFailed ∈ (executeAgreementTransaction env agreement).2
    ∧ TxEvent.releaseItem ∉ (executeAgreementTransaction env agreement).2
    ∧ TxEvent.releaseItemFailed ∉ (executeAgreementTransaction env agreement).2
    ∧ (executeAgreementTransaction env agreement).1
        = (executeAgreementTransaction { env with notifyResult := .ok () } agreement).1 := by
  obtain ⟨billingId, hb⟩ := hb
  refine ⟨?_, ?_, ?_, ?_, ?_⟩ <;>
    simp [executeAgreementTransaction, hr, hs, hb, hn, h2]

/-- C7 witness: the concrete notification-failure environment run against
the example agreement. -/
theorem notification_failure_suppressed_witness :
    notifyFailEnv.reserveResult = .ok ()
    ∧ notifyFailEnv.saveResult = .ok ()
    ∧ notifyFailEnv.billingResult = .ok "bill-1"
    ∧ notifyFailEnv.notifyResult = .error ⟨"Error", "SMTP down"⟩
    ∧ notifyFailEnv.save2Result = .ok ()
    ∧ (executeAgreementTransaction notifyFailEnv exAgreement).1
        = .ok { exAgreement with status := "ACTIVE" }
    ∧ TxEvent.releaseItem ∉ (executeAgreementTransaction notifyFailEnv exAgreement).2 := by
  have h := notification_failure_suppressed notifyFailEnv exAgreement ⟨"Error", "SMTP down"⟩
    rfl rfl ⟨"bill-1", rfl⟩ rfl rfl
  exact ⟨rfl, rfl, rfl, rfl, rfl, h.1, h.2.2.1⟩

/-! Heap lemmas for C8. -/

lemma Heap.next_alloc (h : Heap) (v : JsDate) : (h.alloc v).1.next = h.next + 1 := rfl

lemma Heap.get_alloc_self (h : Heap) (v : JsDate) : (h.alloc v).1.get h.next = v := by
  simp [Heap.alloc, Heap.get]

lemma Heap.get_alloc_ne (h : Heap) (v : JsDate) (r : Nat) (hr : r ≠ h.next) :
    (h.alloc v).1.get r = h.get r := by
  simp [Heap.alloc, Heap.get, hr]

lemma Heap.next_set (h : Heap) (r : Nat) (v : JsDate) : (h.set r v).next = h.next := rfl

lemma Heap.get_set_self (h : Heap) (r : Nat) (v : JsDate) : (h.set r v).get r = v := by
  simp [Heap.set, Heap.get]

lemma Heap.get_set_ne (h : Heap) (r : Nat) (v : JsDate) (x : Nat) (hx : x ≠ r) :
    (h.set r v).get x = h.get x := by
  simp [Heap.set, Heap.get, hx]

/-- Invariant of the heap-level schedule loop: every iteration allocates
the next fresh address, entry `j`'s cell ends up holding the `j`-fold
month-advanced start value, previously existing cells other than the
running date are untouched, and the running date's cell ends at the
`r`-fold advance. -/
lemma scheduleLoopH_spec (k : Int) :
    ∀ (r : Nat) (h : Heap) (cur : Nat) (acc : List Nat), cur < h.next →
      (scheduleLoopH k r h cur acc).1.next = h.next + r
      ∧ (scheduleLoopH k r h cur acc).2 = acc ++ (List.range r).map (fun j => h.next + j)
      ∧ (∀ j, j < r →
          (scheduleLoopH k r h cur acc).1.get (h.next + j) = addMonthsIter k j (h.get cur))
      ∧ (∀ x, x < h.next → x ≠ cur →
          (scheduleLoopH k r h cur acc).1.get x = h.get x)
      ∧ (scheduleLoopH k r h cur acc).1.get cur = addMonthsIter k r (h.get cur) := by
  intro r
  induction r with
  | zero =>
    intro h cur acc hcur
    refine ⟨rfl, by simp [scheduleLoopH], fun j hj => absurd hj (by omega),
      fun x hx hxc => rfl, rfl⟩
  | succ s ih =>
    intro h cur acc hcur
    have hncur : cur ≠ h.next := by omega
    have e1 : (h.alloc (h.get cur)).1.get cur = h.get cur :=
      Heap.get_alloc_ne h (h.get cur) cur hncur
    set h2 := (h.alloc (h.get cur)).1.set cur
      (setMonthAdd ((h.alloc (h.get cur)).1.get cur) k) with hh2
    have hnext2 : h2.next = h.next + 1 := rfl
    have hget_cur : h2.get cur = setMonthAdd (h.get cur) k := by
      rw [hh2, Heap.get_set_self, e1]
    have hget_new : h2.get h.next = h.get cur := by
      rw [hh2, Heap.get_set_ne _ _ _ _ (by omega), Heap.get_alloc_self]
    have hget_old : ∀ x, x < h.next → x ≠ cur → h2.get x = h.get x := by
      intro x hx hxc
      rw [hh2, Heap.get_set_ne _ _ _ _ hxc, Heap.get_alloc_ne _ _ _ (by omega)]
    have hstep : scheduleLoopH k (s + 1) h cur acc
        = scheduleLoopH k s h2 cur (acc ++ [h.next]) := rfl
    obtain ⟨ihn, ihrefs, ihnew, ihold, ihcur⟩ :=
      ih h2 cur (acc ++ [h.next]) (by omega)
    refine ⟨?_, ?_, ?_, ?_, ?_⟩
    · rw [hstep, ihn, hnext2]
      omega
    · rw [hstep, ihrefs, hnext2, List.range_succ_eq_map]
      have hfun : (fun j : Nat => h.next + 1 + j) = (fun j : Nat => h.next + (j + 1)) :=
        funext fun j => by omega
      simp [List.map_map, Function.comp_def, hfun]
    · intro j hj
      rcases j with _ | j'
      · rw [hstep, Nat.add_zero, ihold h.next (by omega) (by omega), hget_new]
        rfl
      · have hrw : h.next + (j' + 1) = h2.next + j' := by omega
        rw [hstep, hrw, ihnew j' (by omega), hget_cur]
        rfl
    · intro x hx hxc
      rw [hstep, ihold x (by omega) hxc, hget_old x hx hxc]
    · rw [hstep, ihcur, hget_cur]
      rfl

/-! Month-arithmetic lemmas for C8's relation between stepwise and single
advances. -/

lemma daysInMonth_ge (y m : Int) : 28 ≤ daysInMonth y m := by
  unfold daysInMonth isLeapYear
  split_ifs <;> norm_num

lemma normDay_id (fuel : Nat) (dt : JsDate) (hd : dt.day ≤ 28) : normDay fuel dt = dt := by
  cases fuel with
  | zero => rfl
  | succ f =>
    unfold normDay
    rw [if_neg]
    have := daysInMonth_ge dt.year dt.month
    omega

lemma setMonthAdd_small (dt : JsDate) (k : Int) (hd : dt.day ≤ 28) :
    setMonthAdd dt k = normMonth ⟨dt.year, dt.month + k, dt.day⟩ := by
  unfold setMonthAdd
  exact normDay_id 48 _ hd

lemma normMonth_normMonth (y m d a b : Int) :
    normMonth ⟨(normMonth ⟨y, m + a, d⟩).year, (normMonth ⟨y, m + a, d⟩).month + b, d⟩
      = normMonth ⟨y, m + (a + b), d⟩ := by
  simp only [normMonth, JsDate.mk.injEq, and_true]
  omega

lemma addMonthsIter_eq_single (k : Int) :
    ∀ (i : Nat) (dt : JsDate), dt.day ≤ 28 → 0 ≤ dt.month → dt.month < 12 →
      addMonthsIter k i dt = setMonthAdd dt (k * i) := by
  intro i
  induction i with
  | zero =>
    intro dt hd hm0 hm1
    obtain ⟨y, m, d⟩ := dt
    dsimp only at hd hm0 hm1
    rw [show addMonthsIter k 0 (⟨y, m, d⟩ : JsDate) = ⟨y, m, d⟩ from rfl,
      setMonthAdd_small _ _ hd]
    simp only [normMonth, JsDate.mk.injEq, Nat.cast_zero, mul_zero, add_zero, and_true]
    omega
  | succ i' ih =>
    intro dt hd hm0 hm1
    obtain ⟨y, m, d⟩ := dt
    dsimp only at hd hm0 hm1
    have h1 : addMonthsIter k (i' + 1) (⟨y, m, d⟩ : JsDate)
        = addMonthsIter k i' (setMonthAdd ⟨y, m, d⟩ k) := rfl
    have h2 : setMonthAdd (⟨y, m, d⟩ : JsDate) k = normMonth ⟨y, m + k, d⟩ :=
      setMonthAdd_small _ _ hd
    have h3 := ih (normMonth ⟨y, m + k, d⟩) hd
      (Int.emod_nonneg _ (by norm_num)) (Int.emod_lt_of_pos _ (by norm_num))
    have h4 : setMonthAdd (normMonth ⟨y, m + k, d⟩) (k * (i' : Int))
        = normMonth ⟨(normMonth ⟨y, m + k, d⟩).year,
            (normMonth ⟨y, m + k, d⟩).month + k * (i' : Int), d⟩ :=
      setMonthAdd_small _ _ hd
    have h5 : setMonthAdd (⟨y, m, d⟩ : JsDate) (k * (((i' + 1 : Nat)) : Int))
        = normMonth ⟨y, m + k * (((i' + 1 : Nat)) : Int), d⟩ :=
      setMonthAdd_small _ _ hd
    rw [h1, h2, h3, h4, normMonth_normMonth, h5]
    have harg : m + (k + k * ((i' : Nat) : Int)) = m + k * (((i' + 1 : Nat)) : Int) := by
      push_cast
      ring
    rw [harg]

/-! C8 -/

/-- An agreement starting on a month-end day (Jan 31 of a leap year), on
which stepwise month advances and a single combined advance differ. -/
def aliasAgreement : LeasingAgreement :=
  { id := "LA-3"
    employeeId := "emp1"
    itemId := "item1"
    startDate := ⟨2024, 0, 31⟩
    endDate := ⟨2024, 5, 1⟩
    status := "DRAFT"
    price := 100
    currency := "USD"
    companyId := "comp1"
    paymentSchedule := []
    metadata := none }

/-- C8 (amended): in every generated schedule, entry `i`'s dueDate is the
start date advanced `i` successive times by `intervalMonths` months (for
start days at most 28 — where no day overflow occurs — this coincides with
a single advance of `i × intervalMonths` months, but not in general, see
the counterexample); each entry's dueDate is a freshly allocated date cell:
all entries' cells are pairwise distinct, distinct from the loop's running
date cell (so later iterations never retroactively alter an earlier
entry's value), and mutating one entry's dueDate cell leaves every other
entry's dueDate unchanged. -/
theorem schedule_dates_fresh_and_stepwise (agreement : LeasingAgreement) (frequency : String)
    (finalHeap : Heap) (currentRef : Nat) (dueRefs : List Nat)
    (hrun : generatePaymentScheduleH agreement frequency = (finalHeap, currentRef, dueRefs)) :
    (∀ i j, i < dueRefs.length → j < dueRefs.length → i ≠ j →
      dueRefs.getD i 0 ≠ dueRefs.getD j 0)
    ∧ (∀ i, i < dueRefs.length → dueRefs.getD i 0 ≠ currentRef)
    ∧ (∀ i, i < dueRefs.length →
        finalHeap.get (dueRefs.getD i 0)
          = addMonthsIter (getIntervalMonths frequency) i agreement.startDate)
    ∧ (∀ i j, i < dueRefs.length → j < dueRefs.length → i ≠ j → ∀ v : JsDate,
        (finalHeap.set (dueRefs.getD i 0) v).get (dueRefs.getD j 0)
          = finalHeap.get (dueRefs.getD j 0))
    ∧ (agreement.startDate.day ≤ 28 → 0 ≤ agreement.startDate.month →
        agreement.startDate.month < 12 →
        ∀ i, i < dueRefs.length →
          finalHeap.get (dueRefs.getD i 0)
            = setMonthAdd agreement.startDate (getIntervalMonths frequency * i)) := by
  injection hrun with hF hrest
  injection hrest with hC hR
  obtain ⟨hn, hrefs, hnew, hold, hcur⟩ :=
    scheduleLoopH_spec (getIntervalMonths frequency)
      (totalPayments agreement frequency).toNat
      (({ next := 0, val := fun _ => ⟨1970, 0, 1⟩ } : Heap).alloc agreement.startDate).1
      0 [] (by rw [Heap.next_alloc]; omega)
  rw [show (({ next := 0, val := fun _ => ⟨1970, 0, 1⟩ } : Heap).alloc
      agreement.startDate).1.next = 1 from rfl] at hrefs hnew
  rw [show (({ next := 0, val := fun _ => ⟨1970, 0, 1⟩ } : Heap).alloc
      agreement.startDate).1.get 0 = agreement.startDate from
    Heap.get_alloc_self { next := 0, val := fun _ => ⟨1970, 0, 1⟩ } agreement.startDate]
    at hnew
  have hRdef : dueRefs = (List.range (totalPayments agreement frequency).toNat).map
      (fun j => 1 + j) := by
    rw [← hR]
    simpa using hrefs
  have hFdef : finalHeap = (scheduleLoopH (getIntervalMonths frequency)
      (totalPayments agreement frequency).toNat
      (({ next := 0, val := fun _ => ⟨1970, 0, 1⟩ } : Heap).alloc agreement.startDate).1
      0 []).1 := hF.symm
  have hCdef : currentRef = 0 := hC.symm
  have hlen : dueRefs.length = (totalPayments agreement frequency).toNat := by
    rw [hRdef, List.length_map, List.length_range]
  have hgetD : ∀ i, i < dueRefs.length → dueRefs.getD i 0 = 1 + i := by
    intro i hi
    rw [hRdef]
    rw [hlen] at hi
    rw [List.getD_eq_getElem?_getD, List.getElem?_map, List.getElem?_range hi]
    rfl
  have hval : ∀ i, i < dueRefs.length →
      finalHeap.get (dueRefs.getD i 0)
        = addMonthsIter (getIntervalMonths frequency) i agreement.startDate := by
    intro i hi
    rw [hgetD i hi, hFdef]
    exact hnew i (by omega)
  refine ⟨?_, ?_, hval, ?_, ?_⟩
  · intro i j hi hj hij
    rw [hgetD i hi, hgetD j hj]
    omega
  · intro i hi
    rw [hgetD i hi, hCdef]
    omega
  · intro i j hi hj hij v
    rw [Heap.get_set_ne]
    rw [hgetD i hi, hgetD j hj]
    omega
  · intro hd hm0 hm1 i hi
    rw [hval i hi]
    exact addMonthsIter_eq_single _ i agreement.startDate hd hm0 hm1

/-- C8 witness: on the example agreement the first two entries' dueDate
cells are distinct. -/
theorem schedule_dates_fresh_and_stepwise_witness :
    (0 < (generatePaymentScheduleH exAgreement "MONTHLY").2.2.length
     ∧ 1 < (generatePaymentScheduleH exAgreement "MONTHLY").2.2.length
     ∧ (0 : Nat) ≠ 1)
    ∧ (generatePaymentScheduleH exAgreement "MONTHLY").2.2.getD 0 0
        ≠ (generatePaymentScheduleH exAgreement "MONTHLY").2.2.getD 1 0 := by
  have h := schedule_dates_fresh_and_stepwise exAgreement "MONTHLY"
    (generatePaymentScheduleH exAgreement "MONTHLY").1
    (generatePaymentScheduleH exAgreement "MONTHLY").2.1
    (generatePaymentScheduleH exAgreement "MONTHLY").2.2 rfl
  have hlen : (generatePaymentScheduleH exAgreement "MONTHLY").2.2.length = 3 := by
    unfold generatePaymentScheduleH
    rw [exAgreement_totalPayments]
    rfl
  exact ⟨⟨by omega, by omega, by omega⟩,
    h.1 0 1 (by omega) (by omega) (by omega)⟩

/-- C8 counterexample: starting Jan 31 2024 with monthly payments, entry 2's
dueDate is Apr 2 2024 (two successive JS one-month advances with day
overflow), not Mar 31 2024 (the start date advanced by 2 × 1 calendar
months in one step), refuting the unamended "i × intervalMonths" reading. -/
theorem schedule_dates_fresh_and_stepwise_cx :
    (generatePaymentScheduleH aliasAgreement "MONTHLY").1.get
        ((generatePaymentScheduleH aliasAgreement "MONTHLY").2.2.getD 2 0)
      = ⟨2024, 3, 2⟩
    ∧ setMonthAdd aliasAgreement.startDate (1 * 2) = ⟨2024, 2, 31⟩
    ∧ (⟨2024, 3, 2⟩ : JsDate) ≠ ⟨2024, 2, 31⟩ := by
  have ht : totalPayments aliasAgreement "MONTHLY" = 5 := by
    simp only [totalPayments, calculateDurationInMonths, getIntervalMonths, aliasAgreement]
    norm_num
  refine ⟨?_, by decide, by decide⟩
  unfold generatePaymentScheduleH
  rw [ht]
  decide

end Leasing
